import Mathlib

/-!
Shallow embedding of the matched-betting core of the Odds repository
(`backend/utils/calculator.py`, `backend/utils/match_filtering.py`,
`backend/utils/offers_calculator.py`, `backend/services/offers_catalog.py`).

Modelling conventions:
* Python floats are modelled as exact rationals (`ℚ`).  `round(x, 2)` is
  modelled by `round2` below; the difference between Python float rounding and
  exact rational rounding can only show at exact half-cent ties, which do not
  occur at any input evaluated in this file.
* Division by zero in `ℚ` yields `0` where Python would raise
  `ZeroDivisionError`; every theorem below that touches a division carries
  hypotheses keeping the denominator away from `0`, except where the guard
  behaviour itself is under study (then an `Option` is used, see
  `MatchFiltering.calculate_spread`).
* Fields of the Python/pydantic records that no claimed code path reads
  (timestamps, free-text descriptions, the input-echo `bet_type`) are omitted
  from the corresponding structures.
-/

/-- Model of Python `round(x, 2)` (round to two decimal places). -/
def round2 (x : ℚ) : ℚ := (round (x * 100) : ℚ) / 100

namespace Calculator

/-- Embedding of `BetType` enum of `models/calculator.py`. -/
inductive BetType where
  | qualifying
  | free_bet_snr
  | free_bet_sr
  deriving DecidableEq

/-- Embedding of `CalcRequest` of `models/calculator.py` (the validation bounds of the
pydantic fields appear as hypotheses of the theorems, not in the data). -/
structure CalcRequest where
  back_odds : ℚ
  lay_odds : ℚ
  stake : ℚ
  bet_type : BetType
  commission : ℚ
  deriving DecidableEq

/-- Embedding of `CalcResponse` of `models/calculator.py`.  `back_wins_profit` and
`lay_wins_profit` are the `profit` fields of the two entries of the
`outcomes` list (their free-text `description`s are omitted). -/
structure CalcResponse where
  back_odds : ℚ
  lay_odds : ℚ
  stake : ℚ
  commission : ℚ
  lay_stake : ℚ
  liability : ℚ
  back_wins_profit : ℚ
  lay_wins_profit : ℚ
  guaranteed_profit : ℚ
  expected_value : ℚ
  rating : String
  spread_percent : ℚ
  deriving DecidableEq

/-- Embedding of `calculate_spread` of `calculator.py`.  The Python source divides with no
guard; at `back_odds = 0` Python raises `ZeroDivisionError` where `ℚ`
division returns `0` (no claim is evaluated there), and for negative
`back_odds` the source really does return the plain number modelled here. -/
def calculate_spread (back_odds lay_odds : ℚ) : ℚ :=
  |lay_odds - back_odds| / back_odds * 100

/-- Embedding of `get_rating` of `calculator.py`. -/
def get_rating (spread : ℚ) (bet_type : BetType) : String :=
  if bet_type = BetType.qualifying then
    if spread ≤ 1.0 then "Excellent"
    else if spread ≤ 2.0 then "Good"
    else if spread ≤ 3.5 then "Fair"
    else "Poor"
  else
    if spread ≤ 2.0 then "Excellent"
    else if spread ≤ 4.0 then "Good"
    else if spread ≤ 6.0 then "Fair"
    else "Poor"

/-- Embedding of `calculate_qualifying_bet` of `calculator.py`. -/
def calculate_qualifying_bet (back_odds lay_odds stake commission : ℚ) :
    CalcResponse :=
  let lay_stake := (stake * back_odds) / (lay_odds - commission)
  let liability := lay_stake * (lay_odds - 1)
  let back_wins_profit := stake * (back_odds - 1) - liability
  let lay_wins_profit := lay_stake * (1 - commission) - stake
  let guaranteed := min back_wins_profit lay_wins_profit
  let expected := (back_wins_profit + lay_wins_profit) / 2
  let spread := calculate_spread back_odds lay_odds
  { back_odds := back_odds
    lay_odds := lay_odds
    stake := stake
    commission := commission
    lay_stake := round2 lay_stake
    liability := round2 liability
    back_wins_profit := round2 back_wins_profit
    lay_wins_profit := round2 lay_wins_profit
    guaranteed_profit := round2 guaranteed
    expected_value := round2 expected
    rating := get_rating spread BetType.qualifying
    spread_percent := round2 spread }

/-- Embedding of `calculate_free_bet_snr` of `calculator.py`. -/
def calculate_free_bet_snr (back_odds lay_odds stake commission : ℚ) :
    CalcResponse :=
  let potential_winnings := stake * (back_odds - 1)
  let lay_stake := potential_winnings / (lay_odds - commission)
  let liability := lay_stake * (lay_odds - 1)
  let back_wins_profit := potential_winnings - liability
  let lay_wins_profit := lay_stake * (1 - commission)
  let guaranteed := min back_wins_profit lay_wins_profit
  let expected := (back_wins_profit + lay_wins_profit) / 2
  let spread := calculate_spread back_odds lay_odds
  { back_odds := back_odds
    lay_odds := lay_odds
    stake := stake
    commission := commission
    lay_stake := round2 lay_stake
    liability := round2 liability
    back_wins_profit := round2 back_wins_profit
    lay_wins_profit := round2 lay_wins_profit
    guaranteed_profit := round2 guaranteed
    expected_value := round2 expected
    rating := get_rating spread BetType.free_bet_snr
    spread_percent := round2 spread }

/-- Embedding of `calculate_free_bet_sr` of `calculator.py`. -/
def calculate_free_bet_sr (back_odds lay_odds stake commission : ℚ) :
    CalcResponse :=
  let potential_payout := stake * back_odds
  let lay_stake := potential_payout / (lay_odds - commission)
  let liability := lay_stake * (lay_odds - 1)
  let back_wins_profit := potential_payout - liability
  let lay_wins_profit := lay_stake * (1 - commission)
  let guaranteed := min back_wins_profit lay_wins_profit
  let expected := (back_wins_profit + lay_wins_profit) / 2
  let spread := calculate_spread back_odds lay_odds
  { back_odds := back_odds
    lay_odds := lay_odds
    stake := stake
    commission := commission
    lay_stake := round2 lay_stake
    liability := round2 liability
    back_wins_profit := round2 back_wins_profit
    lay_wins_profit := round2 lay_wins_profit
    guaranteed_profit := round2 guaranteed
    expected_value := round2 expected
    rating := get_rating spread BetType.free_bet_sr
    spread_percent := round2 spread }

/-- Embedding of `calculate` of `calculator.py` (the dispatch over `bet_type`; the
`ValueError` branch is unreachable since `BetType` has the three cases). -/
def calculate (request : CalcRequest) : CalcResponse :=
  match request.bet_type with
  | BetType.qualifying =>
      calculate_qualifying_bet request.back_odds request.lay_odds
        request.stake request.commission
  | BetType.free_bet_snr =>
      calculate_free_bet_snr request.back_odds request.lay_odds
        request.stake request.commission
  | BetType.free_bet_sr =>
      calculate_free_bet_sr request.back_odds request.lay_odds
        request.stake request.commission

end Calculator

namespace MatchFiltering

/-- Embedding of `calculate_spread` of `match_filtering.py`.  The source returns
`float('inf')` when `back_odds <= 0`; that sentinel is modelled as `none`. -/
def calculate_spread (back_odds lay_odds : ℚ) : Option ℚ :=
  if back_odds ≤ 0 then none
  else some (|lay_odds - back_odds| / back_odds * 100)

/-- Embedding of `calculate_lay_stake` of `match_filtering.py`. -/
def calculate_lay_stake (back_stake back_odds lay_odds commission : ℚ) : ℚ :=
  (back_stake * back_odds) / (lay_odds - commission)

/-- Embedding of `calculate_qualifying_loss` of `match_filtering.py`. -/
def calculate_qualifying_loss (back_stake back_odds lay_odds commission : ℚ) :
    ℚ :=
  let lay_stake := calculate_lay_stake back_stake back_odds lay_odds commission
  let liability := lay_stake * (lay_odds - 1)
  let back_win_profit := back_stake * (back_odds - 1) - liability
  let lay_win_profit := lay_stake * (1 - commission) - back_stake
  let loss := -(min back_win_profit lay_win_profit)
  loss

/-- Embedding of `calculate_free_bet_profit` of `match_filtering.py`. -/
def calculate_free_bet_profit (free_bet_value back_odds lay_odds commission : ℚ)
    (is_snr : Bool) : ℚ :=
  if is_snr then
    let lay_stake := (free_bet_value * (back_odds - 1)) / (lay_odds - commission)
    let liability := lay_stake * (lay_odds - 1)
    let back_win_profit := free_bet_value * (back_odds - 1) - liability
    let lay_win_profit := lay_stake * (1 - commission)
    min back_win_profit lay_win_profit
  else
    let lay_stake := (free_bet_value * back_odds) / (lay_odds - commission)
    let liability := lay_stake * (lay_odds - 1)
    let back_win_profit := free_bet_value * (back_odds - 1) - liability
    let lay_win_profit := lay_stake * (1 - commission) - free_bet_value
    min back_win_profit lay_win_profit

/-- Embedding of `BookmakerOdds` of `models/match.py` (`last_update` omitted, unread by the
claimed code).  `draw_odds` is `Optional` in the source. -/
structure BookmakerOdds where
  bookmaker_key : String
  bookmaker_title : String
  home_odds : ℚ
  draw_odds : Option ℚ
  away_odds : ℚ
  deriving DecidableEq

/-- Embedding of `Match` of `models/match.py` (`commence_time` omitted, unread by the
claimed code). -/
structure Match where
  match_id : String
  sport_key : String
  sport_title : String
  home_team : String
  away_team : String
  bookmaker_odds : List BookmakerOdds
  deriving DecidableEq

/-- The three outcome strings `'home'`, `'away'`, `'draw'` that
`find_best_pairings` iterates over. -/
inductive Outcome where
  | home
  | away
  | draw
  deriving DecidableEq

/-- Embedding of `MatchPairing` of `models/match.py` (`commence_time` omitted). -/
structure MatchPairing where
  match_id : String
  home_team : String
  away_team : String
  league : String
  outcome : Outcome
  outcome_name : String
  back_bookmaker : String
  back_odds : ℚ
  lay_exchange : String
  lay_odds : ℚ
  spread_percent : ℚ
  deriving DecidableEq

/-- The `exchange_keys` list of `get_best_back_odds`
(`Config.BETFAIR_EXCHANGE_KEY = "betfair_ex_uk"`). -/
def exchange_keys : List String := ["betfair_ex_uk", "smarkets"]

/-- The per-outcome odds read by `get_best_back_odds`: a missing draw price is
read as `0` (`bm_odds.draw_odds or 0` in the source). -/
def outcomeOdds (bm : BookmakerOdds) : Outcome → ℚ
  | Outcome.home => bm.home_odds
  | Outcome.away => bm.away_odds
  | Outcome.draw => bm.draw_odds.getD 0

/-- The accumulator loop of `get_best_back_odds`: running
`(best_bookmaker, best_odds)` state, updated when a non-exchange source quotes
strictly higher odds (`if odds > best_odds`). -/
def bestBackLoop (o : Outcome) :
    List BookmakerOdds → Option String × ℚ → Option String × ℚ
  | [], acc => acc
  | bm :: rest, acc =>
    if bm.bookmaker_key ∈ exchange_keys then bestBackLoop o rest acc
    else if acc.2 < outcomeOdds bm o then
      bestBackLoop o rest (some bm.bookmaker_title, outcomeOdds bm o)
    else bestBackLoop o rest acc

/-- Embedding of `get_best_back_odds` of `match_filtering.py` with its default
`exclude_exchanges=True` (every caller in the repository uses the default). -/
def get_best_back_odds (m : Match) (o : Outcome) : Option (String × ℚ) :=
  match bestBackLoop o m.bookmaker_odds (none, 0) with
  | (some b, odds) => some (b, odds)
  | (none, _) => none

/-- Embedding of `get_betfair_lay_odds` of `match_filtering.py`: the first quote whose key
is the Betfair exchange key decides the answer (for `draw` its possibly
missing `draw_odds` is returned as is). -/
def get_betfair_lay_odds (m : Match) (o : Outcome) : Option ℚ :=
  match m.bookmaker_odds.find? (fun bm => bm.bookmaker_key = "betfair_ex_uk") with
  | none => none
  | some bm =>
    match o with
    | Outcome.home => some bm.home_odds
    | Outcome.away => some bm.away_odds
    | Outcome.draw => bm.draw_odds

/-- The body of the inner loop of `find_best_pairings` for one match and one
outcome: `none` models every `continue` (no back leg, back odds out of range,
no/zero lay odds — Python `if not lay_odds` also drops a `0.0` price — or
spread above `max_spread`; an infinite spread, `calculate_spread = none`,
exceeds every finite `max_spread`). -/
def pairingForOutcome (min_odds max_odds max_spread : ℚ) (m : Match)
    (o : Outcome) : Option MatchPairing :=
  match get_best_back_odds m o with
  | none => none
  | some (back_bookmaker, back_odds) =>
    if min_odds ≤ back_odds ∧ back_odds ≤ max_odds then
      match get_betfair_lay_odds m o with
      | none => none
      | some lay_odds =>
        if lay_odds = 0 then none
        else
          match calculate_spread back_odds lay_odds with
          | none => none
          | some spread =>
            if spread > max_spread then none
            else some
              { match_id := m.match_id
                home_team := m.home_team
                away_team := m.away_team
                league := m.sport_title
                outcome := o
                outcome_name :=
                  match o with
                  | Outcome.home => m.home_team
                  | Outcome.away => m.away_team
                  | Outcome.draw => "Draw"
                back_bookmaker := back_bookmaker
                back_odds := back_odds
                lay_exchange := "Betfair"
                lay_odds := lay_odds
                spread_percent := round2 spread }
    else none

/-- The comparison used to model `pairings.sort(key=lambda p: p.spread_percent)`. -/
def spreadLE (p q : MatchPairing) : Bool :=
  decide (p.spread_percent ≤ q.spread_percent)

/-- Embedding of `find_best_pairings` of `match_filtering.py`.  Python's stable `sort` by
`spread_percent` is modelled by the stable `List.mergeSort`. -/
def find_best_pairings (matchList : List Match)
    (min_odds max_odds max_spread : ℚ) : List MatchPairing :=
  (matchList.flatMap (fun m =>
    [Outcome.home, Outcome.away, Outcome.draw].filterMap
      (pairingForOutcome min_odds max_odds max_spread m))).mergeSort spreadLE

/-- Second definition for the refinement claim C3, following the spec's words:
the best (highest) back price among all non-exchange sources whose price lies
within `[min_odds, max_odds]`, ties broken in favour of the first-seen
source.  Compare with `get_best_back_odds`, which ranges over all non-exchange
sources regardless of the odds window. -/
def specInRangeLoop (o : Outcome) (min_odds max_odds : ℚ) :
    List BookmakerOdds → Option String × ℚ → Option String × ℚ
  | [], acc => acc
  | bm :: rest, acc =>
    if bm.bookmaker_key ∈ exchange_keys then
      specInRangeLoop o min_odds max_odds rest acc
    else if min_odds ≤ outcomeOdds bm o ∧ outcomeOdds bm o ≤ max_odds ∧
        acc.2 < outcomeOdds bm o then
      specInRangeLoop o min_odds max_odds rest
        (some bm.bookmaker_title, outcomeOdds bm o)
    else specInRangeLoop o min_odds max_odds rest acc

/-- Spec-side counterpart of `get_best_back_odds` (see `specInRangeLoop`). -/
def spec_best_in_range_back_odds (m : Match) (o : Outcome)
    (min_odds max_odds : ℚ) : Option (String × ℚ) :=
  match specInRangeLoop o min_odds max_odds m.bookmaker_odds (none, 0) with
  | (some b, odds) => some (b, odds)
  | (none, _) => none

end MatchFiltering

namespace OffersCalculator

/-- Python truthiness of an optional float: `None` and `0.0` are falsy, every
other value (negative included) is truthy. -/
def truthy : Option ℚ → Bool
  | none => false
  | some x => decide (x ≠ 0)

/-- The back-odds selection of `calculate_expected_profit_formula`:
`min_odds if min_odds and min_odds >= 1.5 else 2.0`. -/
def backOddsChoice : Option ℚ → ℚ
  | some m => if m ≠ 0 ∧ 1.5 ≤ m then m else 2.0
  | none => 2.0

/-- Embedding of `calculate_expected_profit_formula` of `offers_calculator.py` (the
deterministic fallback profit estimator; dropping to `none` models the
`if not offer_value or not required_stake: return None` guard). -/
def calculate_expected_profit_formula (offer_value required_stake min_odds :
    Option ℚ) (is_stake_returned : Bool) (commission : ℚ) : Option ℚ :=
  if truthy offer_value ∧ truthy required_stake then
    let v := offer_value.getD 0
    let s := required_stake.getD 0
    let back_odds := backOddsChoice min_odds
    let lay_odds := back_odds + 0.02
    let qual_loss :=
      MatchFiltering.calculate_qualifying_loss s back_odds lay_odds commission
    let fb_profit :=
      MatchFiltering.calculate_free_bet_profit v back_odds lay_odds commission
        (!is_stake_returned)
    some (round2 (fb_profit - |qual_loss|))
  else none

end OffersCalculator

namespace OffersCatalog

/-- Python `str.lower` over the characters of a string. -/
def pyLower (s : List Char) : List Char := s.map Char.toLower

/-- Python `str.strip()`: drop leading and trailing whitespace. -/
def pyStrip (s : List Char) : List Char :=
  ((s.dropWhile Char.isWhitespace).reverse.dropWhile Char.isWhitespace).reverse

/-- One pass of Python `str.replace`: replace non-overlapping occurrences of
`patt` left to right, scanning past each replacement.  The `Nat` argument is
an upper bound on the number of remaining steps (the list length suffices for
the non-empty patterns used here). -/
def replaceFrom (patt repl : List Char) : Nat → List Char → List Char
  | 0, l => l
  | _ + 1, [] => []
  | fuel + 1, c :: rest =>
    if patt ≠ [] ∧ patt.isPrefixOf (c :: rest) then
      repl ++ replaceFrom patt repl fuel ((c :: rest).drop patt.length)
    else c :: replaceFrom patt repl fuel rest

/-- Python `str.replace(patt, repl)`. -/
def pyReplace (s patt repl : List Char) : List Char :=
  replaceFrom patt repl (s.length + 1) s

/-- Python substring containment (`patt in s`). -/
def containsSub (patt : List Char) : List Char → Bool
  | [] => patt.isEmpty
  | c :: rest => patt.isPrefixOf (c :: rest) || containsSub patt rest

/-- The `MAINSTREAM_BOOKMAKERS_LOWER` allow-list of
`services/offers_catalog.py`. -/
def MAINSTREAM_BOOKMAKERS_LOWER : List (List Char) :=
  ["bet365".toList, "betfair".toList, "sky bet".toList, "paddy power".toList,
   "william hill".toList, "betway".toList, "coral".toList, "ladbrokes".toList,
   "betvictor".toList, "unibet".toList]

/-- Embedding of `OfferCatalog` restricted to the fields read by `get_sort_key` and its
helpers (`bookmaker = ""` models a missing bookmaker, which is falsy in
Python like `None`). -/
structure OfferCatalog where
  bookmaker : String
  expected_profit : Option ℚ
  difficulty : Option String
  priority_rank : Option ℤ
  deriving DecidableEq

/-- Embedding of `get_difficulty_rank` of `services/offers_catalog.py`:
`easy = 0`, `medium = 1`, `hard = 2`, anything else (missing included) `1`. -/
def get_difficulty_rank (offer : OfferCatalog) : ℕ :=
  match offer.difficulty with
  | none => 1
  | some d =>
    let s := pyLower d.toList
    if s = "easy".toList then 0
    else if s = "medium".toList then 1
    else if s = "hard".toList then 2
    else 1

/-- Embedding of `is_top_10_mainstream` of `services/offers_catalog.py`: lowercase, strip,
remove common suffixes, fix known misparsings, then exact or substring match
(in either direction) against the allow-list. -/
def is_top_10_mainstream (offer : OfferCatalog) : Bool :=
  if offer.bookmaker = "" then false
  else
    let bookmaker_lower := pyStrip (pyLower offer.bookmaker.toList)
    let n1 := pyReplace bookmaker_lower " sportsbook".toList "".toList
    let n2 := pyReplace n1 " exchange".toList "".toList
    let n3 := pyReplace n2 " uk".toList "".toList
    let n4 := pyStrip (pyReplace n3 "  ".toList " ".toList)
    let n5 := pyReplace n4 "betwright".toList "betway".toList
    let normalized := pyReplace n5 "bet wright".toList "betway".toList
    if normalized ∈ MAINSTREAM_BOOKMAKERS_LOWER then true
    else MAINSTREAM_BOOKMAKERS_LOWER.any (fun mainstream =>
      containsSub mainstream normalized || normalized = mainstream)

/-- Embedding of `get_sort_key` of `services/offers_catalog.py`: the composite sort key
`(0 if mainstream else 1, -(expected_profit or 0), difficulty rank,
priority_rank or 999)`.  Note `x or y` in Python falls through to `y` when
`x` is `0` as well as when it is `None`. -/
def get_sort_key (offer : OfferCatalog) : ℕ × ℚ × ℕ × ℤ :=
  ( if is_top_10_mainstream offer then 0 else 1,
    -(offer.expected_profit.getD 0),
    get_difficulty_rank offer,
    match offer.priority_rank with
    | none => 999
    | some n => if n = 0 then 999 else n )

/-- Lexicographic comparison of the composite sort keys (Python compares
tuples lexicographically). -/
def tupLE (x y : ℕ × ℚ × ℕ × ℤ) : Bool :=
  decide (x.1 < y.1) ||
    (decide (x.1 = y.1) && (decide (x.2.1 < y.2.1) ||
      (decide (x.2.1 = y.2.1) && (decide (x.2.2.1 < y.2.2.1) ||
        (decide (x.2.2.1 = y.2.2.1) && decide (x.2.2.2 ≤ y.2.2.2))))))

/-- The comparison used to model `offers.sort(key=get_sort_key)`. -/
def keyLE (a b : OfferCatalog) : Bool := tupLE (get_sort_key a) (get_sort_key b)

/-- Embedding of `offers.sort(key=get_sort_key)` of `get_offers_catalog` (the
`CatalogPrioritizer`): Python's stable sort by the composite key, modelled by
the stable `List.mergeSort`. -/
def sortOffers (offers : List OfferCatalog) : List OfferCatalog :=
  offers.mergeSort keyLE

/-- Second definition for claim C10's key, following the spec's words: in the
fourth component the spec treats only a *missing* priority rank as `999`
(`priority_rank_or_999`), whereas the source's `offer.priority_rank or 999`
also sends a present rank of `0` to `999`. -/
def spec_sort_key (offer : OfferCatalog) : ℕ × ℚ × ℕ × ℤ :=
  ( if is_top_10_mainstream offer then 0 else 1,
    -(offer.expected_profit.getD 0),
    get_difficulty_rank offer,
    match offer.priority_rank with
    | none => 999
    | some n => n )

/-- Spec-side comparison for claim C10 (see `spec_sort_key`). -/
def specKeyLE (a b : OfferCatalog) : Bool :=
  tupLE (spec_sort_key a) (spec_sort_key b)

end OffersCatalog

/-! ## Concrete instances used in counterexamples and witnesses -/

/-- A non-exchange source quoting out-of-range odds (15) on every priced
outcome. -/
def fxQuoteHi : MatchFiltering.BookmakerOdds :=
  { bookmaker_key := "bookie_a", bookmaker_title := "BookieA",
    home_odds := 15, draw_odds := none, away_odds := 15 }

/-- A non-exchange source quoting in-range home odds (3). -/
def fxQuoteIn : MatchFiltering.BookmakerOdds :=
  { bookmaker_key := "bookie_b", bookmaker_title := "BookieB",
    home_odds := 3, draw_odds := none, away_odds := 10 }

/-- The Betfair exchange quote (home lay at 3.02). -/
def fxQuoteEx : MatchFiltering.BookmakerOdds :=
  { bookmaker_key := "betfair_ex_uk", bookmaker_title := "Betfair",
    home_odds := 3.02, draw_odds := none, away_odds := 10 }

/-- A match whose best home back price (15, from BookieA) is out of range
while BookieB's 3 is in range. -/
def fxMatchOutOfRange : MatchFiltering.Match :=
  { match_id := "m1", sport_key := "soccer_epl",
    sport_title := "Premier League", home_team := "Home FC",
    away_team := "Away FC",
    bookmaker_odds := [fxQuoteHi, fxQuoteIn, fxQuoteEx] }

/-- The same match without BookieA, so the best home back price is in
range. -/
def fxMatchInRange : MatchFiltering.Match :=
  { match_id := "m2", sport_key := "soccer_epl",
    sport_title := "Premier League", home_team := "Home FC",
    away_team := "Away FC", bookmaker_odds := [fxQuoteIn, fxQuoteEx] }

/-- The single pairing the engine produces from `fxMatchInRange` with
`min_odds = 1.5`, `max_odds = 5`, `max_spread = 5`. -/
def fxPairing : MatchFiltering.MatchPairing :=
  { match_id := "m2", home_team := "Home FC", away_team := "Away FC",
    league := "Premier League", outcome := MatchFiltering.Outcome.home,
    outcome_name := "Home FC", back_bookmaker := "BookieB", back_odds := 3,
    lay_exchange := "Betfair", lay_odds := 3.02, spread_percent := 0.67 }

/-- An offer with a present priority rank of `0` (falsy in Python). -/
def fxOfferP0 : OffersCatalog.OfferCatalog :=
  { bookmaker := "", expected_profit := none, difficulty := none,
    priority_rank := some 0 }

/-- An offer identical to `fxOfferP0` except for priority rank `500`. -/
def fxOfferP500 : OffersCatalog.OfferCatalog :=
  { bookmaker := "", expected_profit := none, difficulty := none,
    priority_rank := some 500 }

/-- First of two distinct offers with identical sort keys (an explicit
profit of `0` and a missing profit both enter the key as `0`). -/
def fxOfferX : OffersCatalog.OfferCatalog :=
  { bookmaker := "", expected_profit := some 0, difficulty := none,
    priority_rank := some 5 }

/-- Second of two distinct offers with identical sort keys. -/
def fxOfferY : OffersCatalog.OfferCatalog :=
  { bookmaker := "", expected_profit := none, difficulty := none,
    priority_rank := some 5 }

/-! ## Helper lemmas -/

theorem round2_mono {x y : ℚ} (h : x ≤ y) : round2 x ≤ round2 y := by
  unfold round2
  have hr : round (x * 100) ≤ round (y * 100) := by
    rw [round_eq, round_eq]
    exact Int.floor_mono (by linarith)
  have hc : ((round (x * 100) : ℤ) : ℚ) ≤ ((round (y * 100) : ℤ) : ℚ) := by
    exact_mod_cast hr
  exact (div_le_div_iff_of_pos_right (by norm_num)).2 hc

theorem round2_zero : round2 0 = 0 := by
  simp [round2]

theorem round2_nonpos {x : ℚ} (h : x ≤ 0) : round2 x ≤ 0 := by
  have := round2_mono h
  simpa [round2_zero] using this

theorem round2_nonneg {x : ℚ} (h : 0 ≤ x) : 0 ≤ round2 x := by
  have := round2_mono h
  simpa [round2_zero] using this

/-! ## C1 — the Qualifying concrete scenario -/

/-- C1, counterexample.  At `back_odds = 2.10`, `lay_odds = 2.12`,
`stake = 10`, `commission = 0.05` the Qualifying calculation returns
`lay_stake = 10.14`, `liability = 11.36` and `guaranteed_profit = -0.36`:
each is far (by more than any rounding tolerance) from the claimed
`≈9.81`, `≈10.98` and `≈-0.09`. -/
theorem c1_counterexample :
    |(Calculator.calculate
        { back_odds := 2.10, lay_odds := 2.12, stake := 10,
          bet_type := Calculator.BetType.qualifying,
          commission := 0.05 }).lay_stake - 9.81| > 0.3 ∧
    |(Calculator.calculate
        { back_odds := 2.10, lay_odds := 2.12, stake := 10,
          bet_type := Calculator.BetType.qualifying,
          commission := 0.05 }).liability - 10.98| > 0.3 ∧
    |(Calculator.calculate
        { back_odds := 2.10, lay_odds := 2.12, stake := 10,
          bet_type := Calculator.BetType.qualifying,
          commission := 0.05 }).guaranteed_profit - (-0.09)| > 0.2 := by
  norm_num [Calculator.calculate, Calculator.calculate_qualifying_bet,
    Calculator.calculate_spread, round2, round_eq, abs]

/-- C1, amended: what the Qualifying calculation actually returns at
`back_odds = 2.10`, `lay_odds = 2.12`, `stake = 10`, `commission = 0.05`:
`lay_stake = 10.14`, `liability = 11.36`, `guaranteed_profit = -0.36`,
`rating = "Excellent"`, `spread_percent = 0.95` (rating and spread agree
with the claim; the three money figures do not). -/
theorem c1_qualifying_scenario :
    (Calculator.calculate
        { back_odds := 2.10, lay_odds := 2.12, stake := 10,
          bet_type := Calculator.BetType.qualifying,
          commission := 0.05 }).lay_stake = 10.14 ∧
    (Calculator.calculate
        { back_odds := 2.10, lay_odds := 2.12, stake := 10,
          bet_type := Calculator.BetType.qualifying,
          commission := 0.05 }).liability = 11.36 ∧
    (Calculator.calculate
        { back_odds := 2.10, lay_odds := 2.12, stake := 10,
          bet_type := Calculator.BetType.qualifying,
          commission := 0.05 }).guaranteed_profit = -0.36 ∧
    (Calculator.calculate
        { back_odds := 2.10, lay_odds := 2.12, stake := 10,
          bet_type := Calculator.BetType.qualifying,
          commission := 0.05 }).rating = "Excellent" ∧
    (Calculator.calculate
        { back_odds := 2.10, lay_odds := 2.12, stake := 10,
          bet_type := Calculator.BetType.qualifying,
          commission := 0.05 }).spread_percent = 0.95 := by
  norm_num [Calculator.calculate, Calculator.calculate_qualifying_bet,
    Calculator.calculate_spread, Calculator.get_rating, round2, round_eq, abs]

/-! ## C4 — Qualifying guaranteed profit is nonpositive -/

/-- C4, counterexample.  `back_odds = 3`, `lay_odds = 2`, `stake = 10`,
`commission = 0` is a valid input in the claim's sense (both odds `> 1`,
positive stake, commission in `[0, 1)` below the lay odds), yet the
Qualifying guaranteed profit is `5 > 0`: when the back price exceeds the lay
price the qualifying bet is an arbitrage, not a guaranteed loss. -/
theorem c4_counterexample :
    (1 : ℚ) < 3 ∧ (1 : ℚ) < 2 ∧ (0 : ℚ) < 10 ∧ (0 : ℚ) ≤ 0 ∧ (0 : ℚ) < 1 ∧
    (0 : ℚ) < 2 ∧
    0 < (Calculator.calculate_qualifying_bet 3 2 10 0).guaranteed_profit := by
  norm_num [Calculator.calculate_qualifying_bet, Calculator.calculate_spread,
    round2, round_eq]

/-- C4, amended: for every valid Qualifying input with `back_odds ≤ lay_odds`
(the matched-betting regime; without it the counterexample above applies),
the returned guaranteed profit is `≤ 0`. -/
theorem c4_qualifying_guaranteed_nonpos
    (back_odds lay_odds stake commission : ℚ)
    (hb : 1 < back_odds) (hl : 1 < lay_odds) (hs : 0 < stake)
    (hc0 : 0 ≤ commission) (hc1 : commission < 1)
    (hcl : commission < lay_odds) (hbl : back_odds ≤ lay_odds) :
    (Calculator.calculate_qualifying_bet back_odds lay_odds stake
      commission).guaranteed_profit ≤ 0 := by
  have hlc : 0 < lay_odds - commission := by linarith
  have hkey : 0 ≤ stake * ((lay_odds - back_odds) +
      commission * (back_odds - 1)) := by
    have h1 : 0 ≤ lay_odds - back_odds := by linarith
    have h2 : 0 ≤ commission * (back_odds - 1) :=
      mul_nonneg hc0 (by linarith)
    nlinarith
  have hback : stake * (back_odds - 1) -
      stake * back_odds / (lay_odds - commission) * (lay_odds - 1) ≤ 0 := by
    rw [sub_nonpos, div_mul_eq_mul_div, le_div_iff₀ hlc]
    nlinarith
  apply round2_nonpos
  exact le_trans (min_le_left _ _) hback

/-- C4, witness: the amended theorem applied at the concrete valid input
`back_odds = 2.10 ≤ lay_odds = 2.12`, `stake = 10`, `commission = 0.05`. -/
theorem c4_witness :
    (Calculator.calculate_qualifying_bet 2.10 2.12 10
      0.05).guaranteed_profit ≤ 0 :=
  c4_qualifying_guaranteed_nonpos 2.10 2.12 10 0.05 (by norm_num)
    (by norm_num) (by norm_num) (by norm_num) (by norm_num) (by norm_num)
    (by norm_num)

/-! ## C8 — FreeBetSNR guaranteed profit is positive -/

/-- C8, counterexample.  At `back_odds = 1.0001`, `lay_odds = 1.01`,
`stake = 10`, `commission = 0` — odds both `> 1`, commission in `[0, 1)`
below the lay odds — the returned (2-decimal-rounded) `guaranteed_profit`
is exactly `0`, not strictly positive: the exact guaranteed profit
`≈ 0.00099` rounds to zero. -/
theorem c8_counterexample :
    (1 : ℚ) < 1.0001 ∧ (1 : ℚ) < 1.01 ∧ (0 : ℚ) ≤ 0 ∧ (0 : ℚ) < 1 ∧
    (0 : ℚ) < 1.01 ∧ (0 : ℚ) < 10 ∧
    (Calculator.calculate_free_bet_snr 1.0001 1.01 10 0).guaranteed_profit
      = 0 := by
  norm_num [Calculator.calculate_free_bet_snr, Calculator.calculate_spread,
    round2, round_eq]

/-- C8, amended: for every valid input (including a positive stake, which the
claim leaves implicit), the *exact* FreeBetSNR guaranteed profit — the
minimum of the two outcome profits before 2-decimal rounding — is strictly
positive, the returned `guaranteed_profit` is its rounding, and the returned
value is therefore `≥ 0` (it can round down to exactly `0`, as the
counterexample shows). -/
theorem c8_snr_guaranteed (back_odds lay_odds stake commission : ℚ)
    (hb : 1 < back_odds) (hl : 1 < lay_odds) (hs : 0 < stake)
    (hc0 : 0 ≤ commission) (hc1 : commission < 1)
    (hcl : commission < lay_odds) :
    0 < min (stake * (back_odds - 1) -
          stake * (back_odds - 1) / (lay_odds - commission) * (lay_odds - 1))
        (stake * (back_odds - 1) / (lay_odds - commission) *
          (1 - commission)) ∧
    (Calculator.calculate_free_bet_snr back_odds lay_odds stake
        commission).guaranteed_profit =
      round2 (min (stake * (back_odds - 1) -
          stake * (back_odds - 1) / (lay_odds - commission) * (lay_odds - 1))
        (stake * (back_odds - 1) / (lay_odds - commission) *
          (1 - commission))) ∧
    0 ≤ (Calculator.calculate_free_bet_snr back_odds lay_odds stake
        commission).guaranteed_profit := by
  have hlc : 0 < lay_odds - commission := by linarith
  have e1 : stake * (back_odds - 1) -
      stake * (back_odds - 1) / (lay_odds - commission) * (lay_odds - 1) =
      stake * (back_odds - 1) * (1 - commission) / (lay_odds - commission) := by
    field_simp
    ring
  have e2 : stake * (back_odds - 1) / (lay_odds - commission) *
      (1 - commission) =
      stake * (back_odds - 1) * (1 - commission) / (lay_odds - commission) := by
    ring
  have hpos : 0 < stake * (back_odds - 1) * (1 - commission) /
      (lay_odds - commission) :=
    div_pos (mul_pos (mul_pos hs (by linarith)) (by linarith)) hlc
  have hmin : 0 < min (stake * (back_odds - 1) -
      stake * (back_odds - 1) / (lay_odds - commission) * (lay_odds - 1))
      (stake * (back_odds - 1) / (lay_odds - commission) *
        (1 - commission)) := by
    rw [e1, e2, min_self]
    exact hpos
  refine ⟨hmin, rfl, ?_⟩
  exact round2_nonneg (le_of_lt hmin)

/-- C8, witness: the amended theorem applied at `back_odds = 3`,
`lay_odds = 3.05`, `stake = 20`, `commission = 0.05` (the spec's second
concrete scenario). -/
theorem c8_witness :
    0 < min ((20 : ℚ) * (3 - 1) - 20 * (3 - 1) / (3.05 - 0.05) * (3.05 - 1))
        (20 * (3 - 1) / (3.05 - 0.05) * (1 - 0.05)) ∧
    (Calculator.calculate_free_bet_snr 3 3.05 20 0.05).guaranteed_profit =
      round2 (min ((20 : ℚ) * (3 - 1) -
          20 * (3 - 1) / (3.05 - 0.05) * (3.05 - 1))
        (20 * (3 - 1) / (3.05 - 0.05) * (1 - 0.05))) ∧
    0 ≤ (Calculator.calculate_free_bet_snr 3 3.05 20 0.05).guaranteed_profit :=
  c8_snr_guaranteed 3 3.05 20 0.05 (by norm_num) (by norm_num) (by norm_num)
    (by norm_num) (by norm_num) (by norm_num)

/-! ## C6 — the estimator's stake-returned path vs the FreeBetSR policy -/

/-- C6, counterexample.  At `free_bet_value = 50`, `back_odds = 2`,
`lay_odds = 2.02`, `commission = 0.02` the estimator's stake-returned path
(`calculate_free_bet_profit` with `is_snr = False`) yields `-1`, while the
`BetCalculator` FreeBetSR guaranteed profit at the same parameters is `49`:
the two are not equal (they differ by exactly the free-bet value). -/
theorem c6_counterexample :
    MatchFiltering.calculate_free_bet_profit 50 2 2.02 0.02 false = -1 ∧
    (Calculator.calculate_free_bet_sr 2 2.02 50 0.02).guaranteed_profit
      = 49 := by
  constructor
  · norm_num [MatchFiltering.calculate_free_bet_profit, min_def]
  · norm_num [Calculator.calculate_free_bet_sr, Calculator.calculate_spread,
      round2, round_eq, min_def]

/-- C6, amended: the estimator's stake-returned path equals the *exact*
FreeBetSR guaranteed profit **minus the free-bet value** (its back-wins leg
uses `value × (back_odds − 1) − liability` and its lay-wins leg subtracts the
value), while `calculate_free_bet_sr` returns the rounding of that exact
minimum without the subtraction. -/
theorem c6_sr_estimator_vs_calculator (f b l c : ℚ) :
    MatchFiltering.calculate_free_bet_profit f b l c false =
      min (f * b - f * b / (l - c) * (l - 1)) (f * b / (l - c) * (1 - c))
        - f ∧
    (Calculator.calculate_free_bet_sr b l f c).guaranteed_profit =
      round2 (min (f * b - f * b / (l - c) * (l - 1))
        (f * b / (l - c) * (1 - c))) := by
  constructor
  · have e : MatchFiltering.calculate_free_bet_profit f b l c false =
        min (f * (b - 1) - f * b / (l - c) * (l - 1))
          (f * b / (l - c) * (1 - c) - f) := rfl
    rw [e]
    have h1 : f * (b - 1) - f * b / (l - c) * (l - 1) =
        (f * b - f * b / (l - c) * (l - 1)) - f := by ring
    rw [h1, min_sub_sub_right]
  · rfl

/-! ## C9 — the two spread implementations and the nonpositive-odds guard -/

/-- C9, counterexample.  At `back_odds = -2`, `lay_odds = 3` the
`match_filtering` spread returns the infinite sentinel (`none` here), but the
`calculator` spread has no guard at all: it returns the plain number `-250`,
not a sentinel — so the claim is false for the second implementation.  (At
`back_odds = 0` the calculator version raises `ZeroDivisionError` rather
than returning anything.) -/
theorem c9_counterexample :
    MatchFiltering.calculate_spread (-2) 3 = none ∧
    Calculator.calculate_spread (-2) 3 = -250 := by
  constructor
  · norm_num [MatchFiltering.calculate_spread]
  · norm_num [Calculator.calculate_spread]

/-- C9, amended: for `back_odds ≤ 0` the `match_filtering` implementation
returns the sentinel; for `back_odds > 0` both implementations return the
numeric spread `|lay − back| / back × 100`.  The `calculator` implementation
has no nonpositive-odds guard (see the counterexample). -/
theorem c9_spread_guard (b l : ℚ) :
    (b ≤ 0 → MatchFiltering.calculate_spread b l = none) ∧
    (0 < b → MatchFiltering.calculate_spread b l = some (|l - b| / b * 100) ∧
      Calculator.calculate_spread b l = |l - b| / b * 100) := by
  constructor
  · intro h
    simp [MatchFiltering.calculate_spread, h]
  · intro h
    exact ⟨by simp [MatchFiltering.calculate_spread, not_le.2 h], rfl⟩

/-- C9, witness: the amended theorem applied at `back_odds = -1` (sentinel
branch) and at `back_odds = 2`, `lay_odds = 3` (numeric branch, spread
`50%`). -/
theorem c9_witness :
    MatchFiltering.calculate_spread (-1) 3 = none ∧
    MatchFiltering.calculate_spread 2 3 = some 50 ∧
    Calculator.calculate_spread 2 3 = 50 := by
  refine ⟨(c9_spread_guard (-1) 3).1 (by norm_num), ?_, ?_⟩
  · have h := ((c9_spread_guard 2 3).2 (by norm_num)).1
    rw [h]
    norm_num [abs_of_nonneg]
  · have h := ((c9_spread_guard 2 3).2 (by norm_num)).2
    rw [h]
    norm_num [abs_of_nonneg]

/-! ## C5 — when the profit estimator returns `None` -/

/-- C5, counterexample.  A strictly negative `offer_value` is truthy in
Python, so `calculate_expected_profit_formula` does **not** return `None`
for it: at `offer_value = -5`, `required_stake = 10` it returns the numeric
estimate `-2.65`. -/
theorem c5_counterexample :
    OffersCalculator.calculate_expected_profit_formula (some (-5)) (some 10)
      none false 0.02 = some (-2.65) := by
  norm_num [OffersCalculator.calculate_expected_profit_formula,
    OffersCalculator.truthy, OffersCalculator.backOddsChoice,
    MatchFiltering.calculate_qualifying_loss,
    MatchFiltering.calculate_lay_stake,
    MatchFiltering.calculate_free_bet_profit, round2, round_eq, min_def,
    abs, max_def]

/-- C5, amended: the estimator returns `None` exactly when `offer_value` or
`required_stake` is missing **or zero** (Python falsiness); a strictly
negative value is not rejected and produces a numeric estimate. -/
theorem c5_none_iff (v s m : Option ℚ) (sr : Bool) (c : ℚ) :
    OffersCalculator.calculate_expected_profit_formula v s m sr c = none ↔
      (v = none ∨ v = some 0 ∨ s = none ∨ s = some 0) := by
  cases v with
  | none =>
    simp [OffersCalculator.calculate_expected_profit_formula,
      OffersCalculator.truthy]
  | some x =>
    cases s with
    | none =>
      simp [OffersCalculator.calculate_expected_profit_formula,
        OffersCalculator.truthy]
    | some y =>
      by_cases hx : x = 0 <;> by_cases hy : y = 0 <;>
        simp [OffersCalculator.calculate_expected_profit_formula,
          OffersCalculator.truthy, hx, hy]

/-! ## C2 — the deterministic profit estimator's odds policy -/

/-- C2, counterexample.  With a present minimum-odds requirement of `1.2`
the estimator uses `back_odds = 2.0` — not `max(1.2, 1.5) = 1.5` — so
`2.0` is used even though a minimum-odds requirement exists: the estimate at
`offer_value = 50`, `required_stake = 10`, `min_odds = 1.2` is `24.3` (the
`back_odds = 2.0` figure), while the claim's `back_odds = 1.5` policy would
give `16.13`. -/
theorem c2_counterexample :
    OffersCalculator.backOddsChoice (some 1.2) = 2 ∧
    max (1.2 : ℚ) 1.5 = 1.5 ∧
    OffersCalculator.calculate_expected_profit_formula (some 50) (some 10)
      (some 1.2) false 0.02 = some 24.3 ∧
    round2 (MatchFiltering.calculate_free_bet_profit 50 1.5 1.52 0.02 true -
      |MatchFiltering.calculate_qualifying_loss 10 1.5 1.52 0.02|)
      = 16.13 := by
  refine ⟨by norm_num [OffersCalculator.backOddsChoice], by norm_num, ?_, ?_⟩
  · norm_num [OffersCalculator.calculate_expected_profit_formula,
      OffersCalculator.truthy, OffersCalculator.backOddsChoice,
      MatchFiltering.calculate_qualifying_loss,
      MatchFiltering.calculate_lay_stake,
      MatchFiltering.calculate_free_bet_profit, round2, round_eq, min_def,
      abs, max_def]
  · norm_num [MatchFiltering.calculate_qualifying_loss,
      MatchFiltering.calculate_lay_stake,
      MatchFiltering.calculate_free_bet_profit, round2, round_eq, min_def,
      abs, max_def]

/-- C2, amended: for present nonzero `offer_value` and `required_stake` the
estimator returns `free_bet_profit − |qualifying_loss|` rounded to 2
decimals at `lay_odds = back_odds + 0.02`, where `back_odds` is the offer's
`min_odds` when that is present **and at least 1.5**, and `2.0` otherwise —
both when no minimum-odds requirement exists and when it is below 1.5 (the
source never takes `max(min_odds, 1.5)`). -/
theorem c2_estimator_formula (v s : ℚ) (m : Option ℚ) (sr : Bool) (c : ℚ)
    (hv : v ≠ 0) (hs : s ≠ 0) :
    OffersCalculator.calculate_expected_profit_formula (some v) (some s) m
        sr c =
      some (round2 (MatchFiltering.calculate_free_bet_profit v
          (OffersCalculator.backOddsChoice m)
          (OffersCalculator.backOddsChoice m + 0.02) c (!sr) -
        |MatchFiltering.calculate_qualifying_loss s
          (OffersCalculator.backOddsChoice m)
          (OffersCalculator.backOddsChoice m + 0.02) c|)) ∧
    (m = none → OffersCalculator.backOddsChoice m = 2) ∧
    (∀ q : ℚ, m = some q → 1.5 ≤ q →
      OffersCalculator.backOddsChoice m = q) ∧
    (∀ q : ℚ, m = some q → q < 1.5 →
      OffersCalculator.backOddsChoice m = 2) := by
  refine ⟨?_, ?_, ?_, ?_⟩
  · simp [OffersCalculator.calculate_expected_profit_formula,
      OffersCalculator.truthy, hv, hs]
  · intro h
    subst h
    norm_num [OffersCalculator.backOddsChoice]
  · intro q hq hq15
    subst hq
    have hq0 : q ≠ 0 := by
      intro h0
      rw [h0] at hq15
      norm_num at hq15
    simp [OffersCalculator.backOddsChoice, hq0, hq15]
  · intro q hq hqlt
    subst hq
    have : ¬ (q ≠ 0 ∧ (1.5 : ℚ) ≤ q) := by
      rintro ⟨-, h15⟩
      linarith
    simp only [OffersCalculator.backOddsChoice, if_neg this]
    norm_num

/-- C2, witness: the amended theorem applied at `offer_value = 50`,
`required_stake = 10`, `min_odds = 1.2`, stake-not-returned,
`commission = 0.02`. -/
theorem c2_witness :
    OffersCalculator.calculate_expected_profit_formula (some 50) (some 10)
        (some 1.2) false 0.02 =
      some (round2 (MatchFiltering.calculate_free_bet_profit 50
          (OffersCalculator.backOddsChoice (some 1.2))
          (OffersCalculator.backOddsChoice (some 1.2) + 0.02) 0.02
          (!false) -
        |MatchFiltering.calculate_qualifying_loss 10
          (OffersCalculator.backOddsChoice (some 1.2))
          (OffersCalculator.backOddsChoice (some 1.2) + 0.02) 0.02|)) ∧
    (some (1.2 : ℚ) = none → OffersCalculator.backOddsChoice (some 1.2) = 2) ∧
    (∀ q : ℚ, some (1.2 : ℚ) = some q → 1.5 ≤ q →
      OffersCalculator.backOddsChoice (some 1.2) = q) ∧
    (∀ q : ℚ, some (1.2 : ℚ) = some q → q < 1.5 →
      OffersCalculator.backOddsChoice (some 1.2) = 2) :=
  c2_estimator_formula 50 10 (some 1.2) false 0.02 (by norm_num)
    (by norm_num)

/-! ## Pairing-engine infrastructure for C3 and C7 -/

/-- Invariant of the accumulator loop of `get_best_back_odds`: either no
non-exchange quote beats the running best (and the accumulator is returned
unchanged), or the loop returns the title and odds of a non-exchange quote
that strictly beats the accumulator, strictly beats every earlier
non-exchange quote (first-seen tie-break) and is not beaten by any later
one. -/
theorem bestBackLoop_cases (o : MatchFiltering.Outcome)
    (quotes : List MatchFiltering.BookmakerOdds) :
    ∀ (bb : Option String) (bo : ℚ),
      (MatchFiltering.bestBackLoop o quotes (bb, bo) = (bb, bo) ∧
        ∀ bm ∈ quotes, bm.bookmaker_key ∉ MatchFiltering.exchange_keys →
          MatchFiltering.outcomeOdds bm o ≤ bo) ∨
      (∃ l₁ bm l₂, quotes = l₁ ++ bm :: l₂ ∧
        bm.bookmaker_key ∉ MatchFiltering.exchange_keys ∧
        MatchFiltering.bestBackLoop o quotes (bb, bo) =
          (some bm.bookmaker_title, MatchFiltering.outcomeOdds bm o) ∧
        bo < MatchFiltering.outcomeOdds bm o ∧
        (∀ bm' ∈ l₁, bm'.bookmaker_key ∉ MatchFiltering.exchange_keys →
          MatchFiltering.outcomeOdds bm' o <
            MatchFiltering.outcomeOdds bm o) ∧
        (∀ bm' ∈ l₂, bm'.bookmaker_key ∉ MatchFiltering.exchange_keys →
          MatchFiltering.outcomeOdds bm' o ≤
            MatchFiltering.outcomeOdds bm o)) := by
  induction quotes with
  | nil =>
    intro bb bo
    left
    exact ⟨rfl, by simp⟩
  | cons bm0 rest ih =>
    intro bb bo
    by_cases hex : bm0.bookmaker_key ∈ MatchFiltering.exchange_keys
    · have hstep : MatchFiltering.bestBackLoop o (bm0 :: rest) (bb, bo) =
          MatchFiltering.bestBackLoop o rest (bb, bo) := by
        simp [MatchFiltering.bestBackLoop, hex]
      rcases ih bb bo with ⟨heq, hall⟩ |
        ⟨l₁, bm, l₂, hsplit, hnex, hres, hgt, hl₁, hl₂⟩
      · left
        refine ⟨by rw [hstep, heq], ?_⟩
        intro bm' hm hnex'
        rcases List.mem_cons.1 hm with rfl | hmem
        · exact absurd hex hnex'
        · exact hall bm' hmem hnex'
      · right
        refine ⟨bm0 :: l₁, bm, l₂, by simp [hsplit], hnex,
          by rw [hstep]; exact hres, hgt, ?_, hl₂⟩
        intro bm' hm hnex'
        rcases List.mem_cons.1 hm with rfl | hmem
        · exact absurd hex hnex'
        · exact hl₁ bm' hmem hnex'
    · by_cases hup : bo < MatchFiltering.outcomeOdds bm0 o
      · have hstep : MatchFiltering.bestBackLoop o (bm0 :: rest) (bb, bo) =
            MatchFiltering.bestBackLoop o rest
              (some bm0.bookmaker_title, MatchFiltering.outcomeOdds bm0 o) := by
          simp [MatchFiltering.bestBackLoop, hex, hup]
        rcases ih (some bm0.bookmaker_title)
            (MatchFiltering.outcomeOdds bm0 o) with ⟨heq, hall⟩ |
          ⟨l₁, bm, l₂, hsplit, hnex, hres, hgt, hl₁, hl₂⟩
        · right
          exact ⟨[], bm0, rest, rfl, hex, by rw [hstep, heq], hup,
            by simp, hall⟩
        · right
          refine ⟨bm0 :: l₁, bm, l₂, by simp [hsplit], hnex,
            by rw [hstep]; exact hres, lt_trans hup hgt, ?_, hl₂⟩
          intro bm' hm hnex'
          rcases List.mem_cons.1 hm with rfl | hmem
          · exact hgt
          · exact hl₁ bm' hmem hnex'
      · have hstep : MatchFiltering.bestBackLoop o (bm0 :: rest) (bb, bo) =
            MatchFiltering.bestBackLoop o rest (bb, bo) := by
          simp [MatchFiltering.bestBackLoop, hex, hup]
        rcases ih bb bo with ⟨heq, hall⟩ |
          ⟨l₁, bm, l₂, hsplit, hnex, hres, hgt, hl₁, hl₂⟩
        · left
          refine ⟨by rw [hstep, heq], ?_⟩
          intro bm' hm hnex'
          rcases List.mem_cons.1 hm with rfl | hmem
          · exact not_lt.1 hup
          · exact hall bm' hmem hnex'
        · right
          refine ⟨bm0 :: l₁, bm, l₂, by simp [hsplit], hnex,
            by rw [hstep]; exact hres, hgt, ?_, hl₂⟩
          intro bm' hm hnex'
          rcases List.mem_cons.1 hm with rfl | hmem
          · exact lt_of_le_of_lt (not_lt.1 hup) hgt
          · exact hl₁ bm' hmem hnex'

/-- The function `get_best_back_odds` either finds nothing (every non-exchange price is
`≤ 0`) or returns the title and price of the first non-exchange quote that
attains the maximum non-exchange price for the outcome. -/
theorem get_best_back_odds_cases (m : MatchFiltering.Match)
    (o : MatchFiltering.Outcome) :
    (MatchFiltering.get_best_back_odds m o = none ∧
      ∀ bm ∈ m.bookmaker_odds,
        bm.bookmaker_key ∉ MatchFiltering.exchange_keys →
        MatchFiltering.outcomeOdds bm o ≤ 0) ∨
    (∃ l₁ bm l₂, m.bookmaker_odds = l₁ ++ bm :: l₂ ∧
      bm.bookmaker_key ∉ MatchFiltering.exchange_keys ∧
      MatchFiltering.get_best_back_odds m o =
        some (bm.bookmaker_title, MatchFiltering.outcomeOdds bm o) ∧
      0 < MatchFiltering.outcomeOdds bm o ∧
      (∀ bm' ∈ l₁, bm'.bookmaker_key ∉ MatchFiltering.exchange_keys →
        MatchFiltering.outcomeOdds bm' o <
          MatchFiltering.outcomeOdds bm o) ∧
      (∀ bm' ∈ l₂, bm'.bookmaker_key ∉ MatchFiltering.exchange_keys →
        MatchFiltering.outcomeOdds bm' o ≤
          MatchFiltering.outcomeOdds bm o)) := by
  rcases bestBackLoop_cases o m.bookmaker_odds none 0 with ⟨heq, hall⟩ |
    ⟨l₁, bm, l₂, hsplit, hnex, hres, hgt, hl₁, hl₂⟩
  · left
    refine ⟨?_, hall⟩
    unfold MatchFiltering.get_best_back_odds
    rw [heq]
  · right
    refine ⟨l₁, bm, l₂, hsplit, hnex, ?_, hgt, hl₁, hl₂⟩
    unfold MatchFiltering.get_best_back_odds
    rw [hres]

/-- Unpacking of a successful `pairingForOutcome`: the pairing's back leg is
exactly `get_best_back_odds`, its back odds are in range, its lay odds are
the (nonzero) Betfair price, and its spread is within `max_spread`. -/
theorem pairingForOutcome_spec {mn mx ms : ℚ} {m : MatchFiltering.Match}
    {o : MatchFiltering.Outcome} {p : MatchFiltering.MatchPairing}
    (h : MatchFiltering.pairingForOutcome mn mx ms m o = some p) :
    MatchFiltering.get_best_back_odds m o =
      some (p.back_bookmaker, p.back_odds) ∧
    (mn ≤ p.back_odds ∧ p.back_odds ≤ mx) ∧
    MatchFiltering.get_betfair_lay_odds m o = some p.lay_odds ∧
    p.lay_odds ≠ 0 ∧
    ∃ s, MatchFiltering.calculate_spread p.back_odds p.lay_odds = some s ∧
      s ≤ ms ∧ p.spread_percent = round2 s := by
  unfold MatchFiltering.pairingForOutcome at h
  cases hbb : MatchFiltering.get_best_back_odds m o with
  | none =>
    rw [hbb] at h
    exact absurd h (by simp)
  | some pr =>
    obtain ⟨bk, odds⟩ := pr
    rw [hbb] at h
    dsimp only at h
    by_cases hrange : mn ≤ odds ∧ odds ≤ mx
    · rw [if_pos hrange] at h
      cases hlay : MatchFiltering.get_betfair_lay_odds m o with
      | none =>
        rw [hlay] at h
        exact absurd h (by simp)
      | some lo =>
        rw [hlay] at h
        dsimp only at h
        by_cases hlo : lo = 0
        · rw [if_pos hlo] at h
          exact absurd h (by simp)
        · rw [if_neg hlo] at h
          cases hsp : MatchFiltering.calculate_spread odds lo with
          | none =>
            rw [hsp] at h
            exact absurd h (by simp)
          | some s =>
            rw [hsp] at h
            dsimp only at h
            by_cases hms : s > ms
            · rw [if_pos hms] at h
              exact absurd h (by simp)
            · rw [if_neg hms] at h
              have hp := Option.some.inj h
              subst hp
              dsimp only
              exact ⟨rfl, hrange, rfl, hlo, s, hsp, not_lt.1 hms, rfl⟩
    · rw [if_neg hrange] at h
      exact absurd h (by simp)

/-! ## Evaluation of the pairing-engine fixtures -/

theorem fx_string_facts :
    ("bookie_a" : String) ≠ "betfair_ex_uk" ∧
    ("bookie_a" : String) ≠ "smarkets" ∧
    ("bookie_b" : String) ≠ "betfair_ex_uk" ∧
    ("bookie_b" : String) ≠ "smarkets" := by
  refine ⟨by decide, by decide, by decide, by decide⟩

theorem fxOut_best_home :
    MatchFiltering.get_best_back_odds fxMatchOutOfRange
      MatchFiltering.Outcome.home = some ("BookieA", 15) := by
  obtain ⟨h1, h2, h3, h4⟩ := fx_string_facts
  norm_num [MatchFiltering.get_best_back_odds, MatchFiltering.bestBackLoop,
    MatchFiltering.outcomeOdds, MatchFiltering.exchange_keys,
    fxMatchOutOfRange, fxQuoteHi, fxQuoteIn, fxQuoteEx, h1, h2, h3, h4]

theorem fxOut_best_away :
    MatchFiltering.get_best_back_odds fxMatchOutOfRange
      MatchFiltering.Outcome.away = some ("BookieA", 15) := by
  obtain ⟨h1, h2, h3, h4⟩ := fx_string_facts
  norm_num [MatchFiltering.get_best_back_odds, MatchFiltering.bestBackLoop,
    MatchFiltering.outcomeOdds, MatchFiltering.exchange_keys,
    fxMatchOutOfRange, fxQuoteHi, fxQuoteIn, fxQuoteEx, h1, h2, h3, h4]

theorem fxOut_best_draw :
    MatchFiltering.get_best_back_odds fxMatchOutOfRange
      MatchFiltering.Outcome.draw = none := by
  obtain ⟨h1, h2, h3, h4⟩ := fx_string_facts
  norm_num [MatchFiltering.get_best_back_odds, MatchFiltering.bestBackLoop,
    MatchFiltering.outcomeOdds, MatchFiltering.exchange_keys,
    fxMatchOutOfRange, fxQuoteHi, fxQuoteIn, fxQuoteEx, h1, h2, h3, h4]

theorem fxIn_best_home :
    MatchFiltering.get_best_back_odds fxMatchInRange
      MatchFiltering.Outcome.home = some ("BookieB", 3) := by
  obtain ⟨h1, h2, h3, h4⟩ := fx_string_facts
  norm_num [MatchFiltering.get_best_back_odds, MatchFiltering.bestBackLoop,
    MatchFiltering.outcomeOdds, MatchFiltering.exchange_keys,
    fxMatchInRange, fxQuoteIn, fxQuoteEx, h1, h2, h3, h4]

theorem fxIn_best_away :
    MatchFiltering.get_best_back_odds fxMatchInRange
      MatchFiltering.Outcome.away = some ("BookieB", 10) := by
  obtain ⟨h1, h2, h3, h4⟩ := fx_string_facts
  norm_num [MatchFiltering.get_best_back_odds, MatchFiltering.bestBackLoop,
    MatchFiltering.outcomeOdds, MatchFiltering.exchange_keys,
    fxMatchInRange, fxQuoteIn, fxQuoteEx, h1, h2, h3, h4]

theorem fxIn_best_draw :
    MatchFiltering.get_best_back_odds fxMatchInRange
      MatchFiltering.Outcome.draw = none := by
  obtain ⟨h1, h2, h3, h4⟩ := fx_string_facts
  norm_num [MatchFiltering.get_best_back_odds, MatchFiltering.bestBackLoop,
    MatchFiltering.outcomeOdds, MatchFiltering.exchange_keys,
    fxMatchInRange, fxQuoteIn, fxQuoteEx, h1, h2, h3, h4]

theorem fxOut_lay_home :
    MatchFiltering.get_betfair_lay_odds fxMatchOutOfRange
      MatchFiltering.Outcome.home = some 3.02 := by
  obtain ⟨h1, h2, h3, h4⟩ := fx_string_facts
  norm_num [MatchFiltering.get_betfair_lay_odds, List.find?,
    fxMatchOutOfRange, fxQuoteHi, fxQuoteIn, fxQuoteEx, h1, h2, h3, h4]

theorem fxIn_lay_home :
    MatchFiltering.get_betfair_lay_odds fxMatchInRange
      MatchFiltering.Outcome.home = some 3.02 := by
  obtain ⟨h1, h2, h3, h4⟩ := fx_string_facts
  norm_num [MatchFiltering.get_betfair_lay_odds, List.find?,
    fxMatchInRange, fxQuoteIn, fxQuoteEx, h1, h2, h3, h4]

theorem fx_spread_3_302 :
    MatchFiltering.calculate_spread 3 3.02 = some (2 / 3) := by
  rw [MatchFiltering.calculate_spread, if_neg (by norm_num)]
  rw [abs_of_nonneg (by norm_num)]
  norm_num

theorem fxIn_pairing_home :
    MatchFiltering.pairingForOutcome 1.5 5 5 fxMatchInRange
      MatchFiltering.Outcome.home = some fxPairing := by
  rw [MatchFiltering.pairingForOutcome, fxIn_best_home]
  dsimp only
  rw [if_pos (by norm_num), fxIn_lay_home]
  dsimp only
  rw [if_neg (by norm_num), fx_spread_3_302]
  dsimp only
  rw [if_neg (by norm_num)]
  have hsp : round2 (2 / 3) = 0.67 := by
    norm_num [round2, round_eq]
  simp only [fxPairing, fxMatchInRange, hsp]

theorem fxIn_pairing_away :
    MatchFiltering.pairingForOutcome 1.5 5 5 fxMatchInRange
      MatchFiltering.Outcome.away = none := by
  rw [MatchFiltering.pairingForOutcome, fxIn_best_away]
  dsimp only
  rw [if_neg (by norm_num)]

theorem fxIn_pairing_draw :
    MatchFiltering.pairingForOutcome 1.5 5 5 fxMatchInRange
      MatchFiltering.Outcome.draw = none := by
  rw [MatchFiltering.pairingForOutcome, fxIn_best_draw]

theorem fxOut_pairing_home :
    MatchFiltering.pairingForOutcome 1.5 5 5 fxMatchOutOfRange
      MatchFiltering.Outcome.home = none := by
  rw [MatchFiltering.pairingForOutcome, fxOut_best_home]
  dsimp only
  rw [if_neg (by norm_num)]

theorem fxOut_pairing_away :
    MatchFiltering.pairingForOutcome 1.5 5 5 fxMatchOutOfRange
      MatchFiltering.Outcome.away = none := by
  rw [MatchFiltering.pairingForOutcome, fxOut_best_away]
  dsimp only
  rw [if_neg (by norm_num)]

theorem fxOut_pairing_draw :
    MatchFiltering.pairingForOutcome 1.5 5 5 fxMatchOutOfRange
      MatchFiltering.Outcome.draw = none := by
  rw [MatchFiltering.pairingForOutcome, fxOut_best_draw]

theorem fxOut_pairings :
    MatchFiltering.find_best_pairings [fxMatchOutOfRange] 1.5 5 5 = [] := by
  rw [MatchFiltering.find_best_pairings]
  simp [List.filterMap_cons, fxOut_pairing_home, fxOut_pairing_away,
    fxOut_pairing_draw, List.mergeSort]

theorem fxIn_pairings :
    MatchFiltering.find_best_pairings [fxMatchInRange] 1.5 5 5 =
      [fxPairing] := by
  rw [MatchFiltering.find_best_pairings]
  simp [List.filterMap_cons, fxIn_pairing_home, fxIn_pairing_away,
    fxIn_pairing_draw, List.mergeSort]

/-! ## C3 — which back leg the pairing engine selects -/

/-- C3, counterexample.  In `fxMatchOutOfRange`, BookieB quotes an in-range
home price (3, within `[1.5, 5]`), the exchange lay (3.02) exists, and the
spread (`2/3 %`) is within `max_spread = 5` — the claim says this yields a
candidate.  But BookieA's out-of-range 15 is the highest non-exchange price,
the engine checks the range only on that price, and it returns no pairing at
all. -/
theorem c3_counterexample :
    MatchFiltering.find_best_pairings [fxMatchOutOfRange] 1.5 5 5 = [] ∧
    MatchFiltering.spec_best_in_range_back_odds fxMatchOutOfRange
      MatchFiltering.Outcome.home 1.5 5 = some ("BookieB", 3) ∧
    MatchFiltering.get_betfair_lay_odds fxMatchOutOfRange
      MatchFiltering.Outcome.home = some 3.02 ∧
    MatchFiltering.calculate_spread 3 3.02 = some (2 / 3) ∧
    (2 / 3 : ℚ) ≤ 5 := by
  refine ⟨fxOut_pairings, ?_, fxOut_lay_home, fx_spread_3_302, by norm_num⟩
  obtain ⟨h1, h2, h3, h4⟩ := fx_string_facts
  norm_num [MatchFiltering.spec_best_in_range_back_odds,
    MatchFiltering.specInRangeLoop, MatchFiltering.outcomeOdds,
    MatchFiltering.exchange_keys, fxMatchOutOfRange, fxQuoteHi, fxQuoteIn,
    fxQuoteEx, h1, h2, h3, h4]

/-- C3, amended: for every event and outcome the engine selects as back leg
the highest price among **all** non-exchange sources regardless of the odds
window (ties to the first-seen source: strictly above every earlier
non-exchange quote, at least every later one), and then emits a candidate
only if that one price lies within `[min_odds, max_odds]` — an in-range
price from another source is ignored when the overall-highest price is out
of range. -/
theorem c3_back_selection :
    (∀ (mn mx ms : ℚ) (m : MatchFiltering.Match)
        (o : MatchFiltering.Outcome) (p : MatchFiltering.MatchPairing),
      MatchFiltering.pairingForOutcome mn mx ms m o = some p →
        (mn ≤ p.back_odds ∧ p.back_odds ≤ mx) ∧
        ∃ l₁ bm l₂, m.bookmaker_odds = l₁ ++ bm :: l₂ ∧
          bm.bookmaker_key ∉ MatchFiltering.exchange_keys ∧
          bm.bookmaker_title = p.back_bookmaker ∧
          MatchFiltering.outcomeOdds bm o = p.back_odds ∧
          (∀ bm' ∈ l₁, bm'.bookmaker_key ∉ MatchFiltering.exchange_keys →
            MatchFiltering.outcomeOdds bm' o < p.back_odds) ∧
          (∀ bm' ∈ l₂, bm'.bookmaker_key ∉ MatchFiltering.exchange_keys →
            MatchFiltering.outcomeOdds bm' o ≤ p.back_odds)) ∧
    (∀ (mn mx ms : ℚ) (m : MatchFiltering.Match)
        (o : MatchFiltering.Outcome) (bk : String) (odds : ℚ),
      MatchFiltering.get_best_back_odds m o = some (bk, odds) →
      ¬ (mn ≤ odds ∧ odds ≤ mx) →
      MatchFiltering.pairingForOutcome mn mx ms m o = none) := by
  constructor
  · intro mn mx ms m o p hp
    obtain ⟨hbb, hrange, -, -, -⟩ := pairingForOutcome_spec hp
    refine ⟨hrange, ?_⟩
    rcases get_best_back_odds_cases m o with ⟨hnone, -⟩ |
      ⟨l₁, bm, l₂, hsplit, hnex, hres, hpos, hl₁, hl₂⟩
    · rw [hnone] at hbb
      exact absurd hbb (by simp)
    · rw [hres] at hbb
      have hpair := Option.some.inj hbb
      have htitle : bm.bookmaker_title = p.back_bookmaker :=
        congrArg Prod.fst hpair
      have hodds : MatchFiltering.outcomeOdds bm o = p.back_odds :=
        congrArg Prod.snd hpair
      refine ⟨l₁, bm, l₂, hsplit, hnex, htitle, hodds, ?_, ?_⟩
      · intro bm' hm hx
        rw [← hodds]
        exact hl₁ bm' hm hx
      · intro bm' hm hx
        rw [← hodds]
        exact hl₂ bm' hm hx
  · intro mn mx ms m o bk odds hbb hnr
    unfold MatchFiltering.pairingForOutcome
    rw [hbb]
    dsimp only
    rw [if_neg hnr]

/-- C3, witness: the amended theorem applied to `fxMatchInRange` (whose
engine output pairing is `fxPairing`, backed at BookieB's in-range 3) and to
`fxMatchOutOfRange` (whose overall-best home price 15 is out of range, so
the outcome is dropped). -/
theorem c3_witness :
    (((1.5 : ℚ) ≤ fxPairing.back_odds ∧ fxPairing.back_odds ≤ 5) ∧
      ∃ l₁ bm l₂, fxMatchInRange.bookmaker_odds = l₁ ++ bm :: l₂ ∧
        bm.bookmaker_key ∉ MatchFiltering.exchange_keys ∧
        bm.bookmaker_title = fxPairing.back_bookmaker ∧
        MatchFiltering.outcomeOdds bm MatchFiltering.Outcome.home =
          fxPairing.back_odds ∧
        (∀ bm' ∈ l₁, bm'.bookmaker_key ∉ MatchFiltering.exchange_keys →
          MatchFiltering.outcomeOdds bm' MatchFiltering.Outcome.home <
            fxPairing.back_odds) ∧
        (∀ bm' ∈ l₂, bm'.bookmaker_key ∉ MatchFiltering.exchange_keys →
          MatchFiltering.outcomeOdds bm' MatchFiltering.Outcome.home ≤
            fxPairing.back_odds)) ∧
    MatchFiltering.pairingForOutcome 1.5 5 5 fxMatchOutOfRange
      MatchFiltering.Outcome.home = none := by
  constructor
  · exact c3_back_selection.1 1.5 5 5 fxMatchInRange
      MatchFiltering.Outcome.home fxPairing fxIn_pairing_home
  · exact c3_back_selection.2 1.5 5 5 fxMatchOutOfRange
      MatchFiltering.Outcome.home "BookieA" 15 fxOut_best_home
      (by norm_num)

/-! ## C7 — output filtering and ordering of the pairing engine -/

theorem spreadLE_trans : ∀ (a b c : MatchFiltering.MatchPairing),
    MatchFiltering.spreadLE a b → MatchFiltering.spreadLE b c →
    MatchFiltering.spreadLE a c := by
  intro a b c hab hbc
  simp only [MatchFiltering.spreadLE, decide_eq_true_eq] at hab hbc ⊢
  exact le_trans hab hbc

theorem spreadLE_total : ∀ (a b : MatchFiltering.MatchPairing),
    MatchFiltering.spreadLE a b || MatchFiltering.spreadLE b a := by
  intro a b
  simp only [MatchFiltering.spreadLE, Bool.or_eq_true, decide_eq_true_eq]
  exact le_total _ _

/-- C7: every pairing returned by `find_best_pairings` carries both legs —
a best-back source (`get_best_back_odds`) and a present, nonzero exchange
lay price — its exact spread is defined (back odds positive) and at most
`max_spread`, and the returned list is sorted ascending by the stored
(rounded) `spread_percent`. -/
theorem c7_find_pairings (matchList : List MatchFiltering.Match)
    (mn mx ms : ℚ) :
    (∀ p ∈ MatchFiltering.find_best_pairings matchList mn mx ms,
      (∃ m ∈ matchList, ∃ o,
        MatchFiltering.get_best_back_odds m o =
          some (p.back_bookmaker, p.back_odds) ∧
        MatchFiltering.get_betfair_lay_odds m o = some p.lay_odds ∧
        p.lay_odds ≠ 0) ∧
      ∃ s, MatchFiltering.calculate_spread p.back_odds p.lay_odds = some s ∧
        s ≤ ms ∧ p.spread_percent = round2 s) ∧
    List.Pairwise (fun p q => p.spread_percent ≤ q.spread_percent)
      (MatchFiltering.find_best_pairings matchList mn mx ms) := by
  constructor
  · intro p hp
    unfold MatchFiltering.find_best_pairings at hp
    rw [List.mem_mergeSort, List.mem_flatMap] at hp
    obtain ⟨m, hm, hp2⟩ := hp
    rw [List.mem_filterMap] at hp2
    obtain ⟨o, -, hsome⟩ := hp2
    obtain ⟨h1, -, h3, h4, h5⟩ := pairingForOutcome_spec hsome
    exact ⟨⟨m, hm, o, h1, h3, h4⟩, h5⟩
  · unfold MatchFiltering.find_best_pairings
    have hs := List.sorted_mergeSort spreadLE_trans spreadLE_total
      (matchList.flatMap (fun m =>
        [MatchFiltering.Outcome.home, MatchFiltering.Outcome.away,
          MatchFiltering.Outcome.draw].filterMap
          (MatchFiltering.pairingForOutcome mn mx ms m)))
    exact hs.imp (fun h => by
      simpa [MatchFiltering.spreadLE] using h)

/-- C7, witness: the theorem applied to the one-match list
`[fxMatchInRange]`, whose engine output is exactly `[fxPairing]`. -/
theorem c7_witness :
    ((∃ m ∈ [fxMatchInRange], ∃ o,
        MatchFiltering.get_best_back_odds m o =
          some (fxPairing.back_bookmaker, fxPairing.back_odds) ∧
        MatchFiltering.get_betfair_lay_odds m o = some fxPairing.lay_odds ∧
        fxPairing.lay_odds ≠ 0) ∧
      ∃ s, MatchFiltering.calculate_spread fxPairing.back_odds
          fxPairing.lay_odds = some s ∧
        s ≤ 5 ∧ fxPairing.spread_percent = round2 s) ∧
    List.Pairwise (fun p q => p.spread_percent ≤ q.spread_percent)
      (MatchFiltering.find_best_pairings [fxMatchInRange] 1.5 5 5) := by
  refine ⟨(c7_find_pairings [fxMatchInRange] 1.5 5 5).1 fxPairing ?_,
    (c7_find_pairings [fxMatchInRange] 1.5 5 5).2⟩
  rw [fxIn_pairings]
  exact List.mem_singleton.2 rfl

/-! ## C10 — the catalog prioritizer's composite sort key and stability -/

theorem tupLE_refl (x : ℕ × ℚ × ℕ × ℤ) : OffersCatalog.tupLE x x = true := by
  simp [OffersCatalog.tupLE]

theorem tupLE_trans : ∀ x y z : ℕ × ℚ × ℕ × ℤ,
    OffersCatalog.tupLE x y = true → OffersCatalog.tupLE y z = true →
    OffersCatalog.tupLE x z = true := by
  rintro ⟨x1, x2, x3, x4⟩ ⟨y1, y2, y3, y4⟩ ⟨z1, z2, z3, z4⟩ hxy hyz
  simp only [OffersCatalog.tupLE, Bool.or_eq_true, Bool.and_eq_true,
    decide_eq_true_eq] at hxy hyz ⊢
  rcases hxy with h1 | ⟨rfl, h2 | ⟨rfl, h3 | ⟨rfl, h4⟩⟩⟩
  · rcases hyz with g1 | ⟨rfl, -⟩
    · exact Or.inl (lt_trans h1 g1)
    · exact Or.inl h1
  · rcases hyz with g1 | ⟨rfl, g⟩
    · exact Or.inl g1
    · rcases g with g2 | ⟨rfl, -⟩
      · exact Or.inr ⟨rfl, Or.inl (lt_trans h2 g2)⟩
      · exact Or.inr ⟨rfl, Or.inl h2⟩
  · rcases hyz with g1 | ⟨rfl, g2 | ⟨rfl, g⟩⟩
    · exact Or.inl g1
    · exact Or.inr ⟨rfl, Or.inl g2⟩
    · rcases g with g3 | ⟨rfl, -⟩
      · exact Or.inr ⟨rfl, Or.inr ⟨rfl, Or.inl (lt_trans h3 g3)⟩⟩
      · exact Or.inr ⟨rfl, Or.inr ⟨rfl, Or.inl h3⟩⟩
  · rcases hyz with g1 | ⟨rfl, g2 | ⟨rfl, g3 | ⟨rfl, g4⟩⟩⟩
    · exact Or.inl g1
    · exact Or.inr ⟨rfl, Or.inl g2⟩
    · exact Or.inr ⟨rfl, Or.inr ⟨rfl, Or.inl g3⟩⟩
    · exact Or.inr ⟨rfl, Or.inr ⟨rfl, Or.inr ⟨rfl, le_trans h4 g4⟩⟩⟩

theorem tupLE_total : ∀ x y : ℕ × ℚ × ℕ × ℤ,
    (OffersCatalog.tupLE x y || OffersCatalog.tupLE y x) = true := by
  rintro ⟨x1, x2, x3, x4⟩ ⟨y1, y2, y3, y4⟩
  simp only [OffersCatalog.tupLE, Bool.or_eq_true, Bool.and_eq_true,
    decide_eq_true_eq]
  rcases lt_trichotomy x1 y1 with h | rfl | h
  · exact Or.inl (Or.inl h)
  · rcases lt_trichotomy x2 y2 with h | rfl | h
    · exact Or.inl (Or.inr ⟨rfl, Or.inl h⟩)
    · rcases lt_trichotomy x3 y3 with h | rfl | h
      · exact Or.inl (Or.inr ⟨rfl, Or.inr ⟨rfl, Or.inl h⟩⟩)
      · rcases le_total x4 y4 with h | h
        · exact Or.inl (Or.inr ⟨rfl, Or.inr ⟨rfl, Or.inr ⟨rfl, h⟩⟩⟩)
        · exact Or.inr (Or.inr ⟨rfl, Or.inr ⟨rfl, Or.inr ⟨rfl, h⟩⟩⟩)
      · exact Or.inr (Or.inr ⟨rfl, Or.inr ⟨rfl, Or.inl h⟩⟩)
    · exact Or.inr (Or.inr ⟨rfl, Or.inl h⟩)
  · exact Or.inr (Or.inl h)

theorem keyLE_trans : ∀ a b c : OffersCatalog.OfferCatalog,
    OffersCatalog.keyLE a b → OffersCatalog.keyLE b c →
    OffersCatalog.keyLE a c :=
  fun _ _ _ hab hbc => tupLE_trans _ _ _ hab hbc

theorem keyLE_total : ∀ a b : OffersCatalog.OfferCatalog,
    OffersCatalog.keyLE a b || OffersCatalog.keyLE b a :=
  fun _ _ => tupLE_total _ _

/-- C10, counterexample.  `fxOfferP0` and `fxOfferP500` differ only in their
*present* priority ranks, `0` and `500`.  Under the claim's key (missing
priority → 999, present priority kept) `fxOfferP0` must sort first
(`0 < 500`), but the source's `priority_rank or 999` also turns the falsy
`0` into `999`, so the sorted output puts `fxOfferP500` first — an order the
spec's key forbids (`specKeyLE fxOfferP500 fxOfferP0 = false`). -/
theorem c10_counterexample :
    OffersCatalog.sortOffers [fxOfferP0, fxOfferP500] =
      [fxOfferP500, fxOfferP0] ∧
    OffersCatalog.specKeyLE fxOfferP500 fxOfferP0 = false := by
  constructor
  · norm_num [OffersCatalog.sortOffers, List.mergeSort, List.merge,
      OffersCatalog.keyLE, OffersCatalog.tupLE, OffersCatalog.get_sort_key,
      OffersCatalog.is_top_10_mainstream, OffersCatalog.get_difficulty_rank,
      fxOfferP0, fxOfferP500]
  · norm_num [OffersCatalog.specKeyLE, OffersCatalog.tupLE,
      OffersCatalog.spec_sort_key, OffersCatalog.is_top_10_mainstream,
      OffersCatalog.get_difficulty_rank, fxOfferP0, fxOfferP500]

/-- C10, amended: the prioritizer stably sorts by the composite key
`(0 if mainstream else 1, −(expected_profit or 0), difficulty rank,
priority_rank or 999)`, where — as in the source — a priority rank that is
missing **or zero** becomes `999`: the output is a permutation of the input,
it is sorted by the key, and offers with identical keys keep their relative
input order. -/
theorem c10_catalog_sort (offers : List OffersCatalog.OfferCatalog) :
    (OffersCatalog.sortOffers offers).Perm offers ∧
    List.Pairwise (fun a b => OffersCatalog.keyLE a b = true)
      (OffersCatalog.sortOffers offers) ∧
    ∀ a b : OffersCatalog.OfferCatalog,
      OffersCatalog.get_sort_key a = OffersCatalog.get_sort_key b →
      [a, b].Sublist offers →
      [a, b].Sublist (OffersCatalog.sortOffers offers) := by
  refine ⟨List.mergeSort_perm offers _, ?_, ?_⟩
  · exact List.sorted_mergeSort keyLE_trans keyLE_total offers
  · intro a b hkey hsub
    have hab : OffersCatalog.keyLE a b = true := by
      unfold OffersCatalog.keyLE
      rw [hkey]
      exact tupLE_refl _
    exact List.pair_sublist_mergeSort keyLE_trans keyLE_total hab hsub

/-- C10, witness: the amended theorem applied to `[fxOfferX, fxOfferY]`,
two distinct offers with identical sort keys, whose input order survives the
sort. -/
theorem c10_witness :
    (OffersCatalog.sortOffers [fxOfferX, fxOfferY]).Perm
      [fxOfferX, fxOfferY] ∧
    List.Pairwise (fun a b => OffersCatalog.keyLE a b = true)
      (OffersCatalog.sortOffers [fxOfferX, fxOfferY]) ∧
    [fxOfferX, fxOfferY].Sublist
      (OffersCatalog.sortOffers [fxOfferX, fxOfferY]) := by
  obtain ⟨h1, h2, h3⟩ := c10_catalog_sort [fxOfferX, fxOfferY]
  exact ⟨h1, h2, h3 fxOfferX fxOfferY rfl (List.Sublist.refl _)⟩
